import Mathlib

/-!
Shallow embedding of `backend/agent_graph.py` (the LangGraph SQL agent):
workflow state, the seven graph nodes, the `should_repair` routing
function, the driver loop between validation, repair, execution and
answer generation, and the `run_agent` entry point.

External collaborators (the DeepSeek backend call, `run_query` on the
row store, `get_schema`) are nondeterministic inputs modelled as an
`Oracle` record of explicit results; everything else is translated
directly from the Python source.  Python strings are Lean `String`s,
`None`-able fields are `Option`s, and Python truthiness of string
fields (`if not sql`, `if state.get("sql_error")`) is the explicit
`truthy` test below.  The regular-expression scans of the validator
(`\bKW\b` search, `\bFROM\s+(\w+)\b` findall, `\bLIMIT\s+(\d+)`) are
implemented character by character over the ASCII SQL text, with `\w`
as `[A-Za-z0-9_]` and `\s` as whitespace, matching `re` semantics on
the ASCII inputs the agent handles.  The float field
`sql_confidence` is carried along only as the raw optional string
response field; no claim touches it.
-/

namespace NullAxis

/-- `\w` character class of the validator's regexes: `[A-Za-z0-9_]`. -/
def wordChar (c : Char) : Bool := c.isAlphanum || c == '_'

/-- One character of Python `str.upper()` on the ASCII SQL text. -/
def charUpper (c : Char) : Char :=
  if 'a' ≤ c && c ≤ 'z' then Char.ofNat (c.toNat - 32) else c

/-- One character of Python `str.lower()` on the ASCII SQL text. -/
def charLower (c : Char) : Char :=
  if 'A' ≤ c && c ≤ 'Z' then Char.ofNat (c.toNat + 32) else c

/-- Python `str.upper()`. -/
def pyUpper (s : String) : String := String.mk (s.data.map charUpper)

/-- Python `str.lower()`. -/
def pyLower (s : String) : String := String.mk (s.data.map charLower)

/-- Python `str.strip()` (whitespace on both ends). -/
def pyStrip (s : String) : String :=
  String.mk (((s.data.dropWhile (·.isWhitespace)).reverse.dropWhile (·.isWhitespace)).reverse)

/-- Python `str.rstrip(';')`. -/
def pyRstripSemi (s : String) : String :=
  String.mk ((s.data.reverse.dropWhile (· == ';')).reverse)

/-- Python `str.startswith(pre)`. -/
def pyStartsWith (s pre : String) : Bool := pre.data.isPrefixOf s.data

/-- Python `str.endswith(suf)`. -/
def pyEndsWith (s suf : String) : Bool := suf.data.isSuffixOf s.data

/-- `matchWordAt kw s` holds when `kw` is a prefix of `s` and the next
character of `s` after it (if any) is not a word character: the regex
fragment `KW\b` anchored at the start of `s`. -/
def matchWordAt : List Char → List Char → Bool
  | [], [] => true
  | [], c :: _ => !wordChar c
  | _ :: _, [] => false
  | k :: ks, c :: cs => k == c && matchWordAt ks cs

/-- Scan of `re.search(r'\bKW\b', s)`: `prev` records whether the
character just before the current position is a word character. -/
def searchWordAux (kw : List Char) : Bool → List Char → Bool
  | prev, [] => !prev && matchWordAt kw []
  | prev, c :: cs =>
      (!prev && matchWordAt kw (c :: cs)) || searchWordAux kw (wordChar c) cs

/-- `re.search(r'\b' + kw + r'\b', s) is not None` for a keyword made of
word characters. -/
def searchWord (kw s : String) : Bool := searchWordAux kw.data false s.data

/-- Drop `kw` as an exact prefix of `s`, returning the rest. -/
def dropKw : List Char → List Char → Option (List Char)
  | [], s => some s
  | _ :: _, [] => none
  | k :: ks, c :: cs => if k == c then dropKw ks cs else none

/-- One attempted match of `KW\s+(\w+)` at the current position:
returns the captured word and the remaining text after it. -/
def tryRefMatch (kw s : List Char) : Option (List Char × List Char) :=
  match dropKw kw s with
  | none => none
  | some r1 =>
      if (r1.takeWhile (·.isWhitespace)).isEmpty then none
      else
        let r2 := r1.dropWhile (·.isWhitespace)
        let w := r2.takeWhile wordChar
        if w.isEmpty then none else some (w, r2.dropWhile wordChar)

theorem dropKw_length {kw s r : List Char} (h : dropKw kw s = some r) :
    r.length ≤ s.length := by
  induction kw generalizing s r with
  | nil => simp [dropKw] at h; simp [h]
  | cons k ks ih =>
    cases s with
    | nil => simp [dropKw] at h
    | cons c cs =>
      simp only [dropKw] at h
      split at h
      · exact Nat.le_succ_of_le (ih h)
      · exact absurd h (by simp)

theorem dropWhile_length_le (p : Char → Bool) (l : List Char) :
    (l.dropWhile p).length ≤ l.length := by
  induction l with
  | nil => simp [List.dropWhile]
  | cons c cs ih =>
    by_cases hc : p c
    · simp only [List.dropWhile, hc]
      exact Nat.le_succ_of_le ih
    · simp [List.dropWhile, hc]

theorem dropWhile_length_lt {p : Char → Bool} {l : List Char}
    (h : ¬(l.takeWhile p).isEmpty) : (l.dropWhile p).length < l.length := by
  cases l with
  | nil => simp [List.takeWhile] at h
  | cons c cs =>
    by_cases hc : p c
    · simp only [List.dropWhile, hc]
      exact Nat.lt_succ_of_le (dropWhile_length_le p cs)
    · simp [List.takeWhile, hc] at h

theorem tryRefMatch_length {kw s w rest : List Char}
    (h : tryRefMatch kw s = some (w, rest)) : rest.length < s.length := by
  unfold tryRefMatch at h
  cases hd : dropKw kw s with
  | none => rw [hd] at h; exact absurd h (by simp)
  | some r1 =>
    rw [hd] at h
    simp only at h
    split at h
    · exact absurd h (by simp)
    · split at h
      · exact absurd h (by simp)
      · rename_i hws hw
        simp only [Option.some.injEq, Prod.mk.injEq] at h
        have h1 : rest.length < (r1.dropWhile (·.isWhitespace)).length := by
          rw [← h.2]
          exact dropWhile_length_lt hw
        have h2 : (r1.dropWhile (·.isWhitespace)).length < r1.length :=
          dropWhile_length_lt hws
        exact lt_of_lt_of_le (lt_trans h1 h2) (dropKw_length hd)

/-- Scan of `re.findall(r'\bKW\s+(\w+)\b', s)`: all captured groups of
non-overlapping matches, left to right.  After a match the scan resumes
after the captured word (whose last character is a word character).
The fuel argument keeps the recursion structural (the kernel can then
evaluate the scan); every step consumes at least one character of `s`,
so any fuel of at least `s.length` gives the same result
(`findRefsAux_fuel`). -/
def findRefsAux (kw : List Char) : Nat → Bool → List Char → List (List Char)
  | _, _, [] => []
  | 0, _, _ :: _ => []
  | fuel + 1, prev, c :: cs =>
      if !prev then
        match tryRefMatch kw (c :: cs) with
        | some (w, rest) => w :: findRefsAux kw fuel true rest
        | none => findRefsAux kw fuel (wordChar c) cs
      else findRefsAux kw fuel (wordChar c) cs

theorem findRefsAux_fuel (kw : List Char) :
    ∀ (f1 : Nat) (s : List Char) (f2 : Nat) (prev : Bool), s.length ≤ f1 → s.length ≤ f2 →
      findRefsAux kw f1 prev s = findRefsAux kw f2 prev s := by
  intro f1
  induction f1 with
  | zero =>
    intro s f2 prev h1 _
    have : s = [] := List.length_eq_zero.mp (Nat.le_zero.mp h1)
    subst this
    cases f2 <;> rfl
  | succ f ih =>
    intro s f2 prev h1 h2
    cases s with
    | nil => cases f2 <;> rfl
    | cons c cs =>
      cases f2 with
      | zero => exact absurd h2 (by simp)
      | succ f2 =>
        simp only [findRefsAux]
        by_cases hp : (!prev) = true
        · rw [if_pos hp, if_pos hp]
          cases htr : tryRefMatch kw (c :: cs) with
          | some pr =>
            obtain ⟨w, rest⟩ := pr
            dsimp only
            have hlen : rest.length < (c :: cs).length := tryRefMatch_length htr
            simp only [List.length_cons] at h1 h2 hlen
            rw [ih rest f2 true (by omega) (by omega)]
          | none =>
            dsimp only
            simp only [List.length_cons] at h1 h2
            exact ih cs f2 (wordChar c) (by omega) (by omega)
        · rw [if_neg hp, if_neg hp]
          simp only [List.length_cons] at h1 h2
          exact ih cs f2 (wordChar c) (by omega) (by omega)

/-- `re.findall(r'\bKW\s+(\w+)\b', s)` as strings. -/
def findRefs (kw s : String) : List String :=
  (findRefsAux kw.data s.data.length false s.data).map (fun l => String.mk l)

/-- One attempted match of `LIMIT\s+(\d+)` at the current position. -/
def tryNumMatch (kw s : List Char) : Option (List Char) :=
  match dropKw kw s with
  | none => none
  | some r1 =>
      if (r1.takeWhile (·.isWhitespace)).isEmpty then none
      else
        let r2 := r1.dropWhile (·.isWhitespace)
        let d := r2.takeWhile (·.isDigit)
        if d.isEmpty then none else some d

/-- Scan of `re.search(r'\bLIMIT\s+(\d+)', s)`: first captured digit
group, if any. -/
def firstNumAux (kw : List Char) : Bool → List Char → Option (List Char)
  | _, [] => none
  | prev, c :: cs =>
      if !prev then
        match tryNumMatch kw (c :: cs) with
        | some d => some d
        | none => firstNumAux kw (wordChar c) cs
      else firstNumAux kw (wordChar c) cs

/-- `int` of a digit group. -/
def digitsToNat (l : List Char) : Nat :=
  l.foldl (fun n c => n * 10 + (c.toNat - 48)) 0

/-- The first `\bLIMIT\s+(\d+)` match of `s`, parsed: `has_limit` is its
`isSome`, and `limit_value` its value (`agent_graph.py` lines 169/176). -/
def firstLimit (s : String) : Option Nat :=
  (firstNumAux "LIMIT".data false s.data).map digitsToNat

/-- The fixed forbidden-keyword list (`agent_graph.py` lines 138-142). -/
def forbiddenKeywords : List String :=
  ["INSERT", "UPDATE", "DELETE", "DROP", "ALTER", "ATTACH",
   "PRAGMA", "CREATE", "TRUNCATE", "COPY", "ANALYZE", "EXECUTE",
   "EXEC", "CALL", "MERGE", "REPLACE"]

/-- First forbidden keyword found as a whole word in the uppercased SQL
(the loop of lines 144-149). -/
def findForbidden (u : String) : Option String :=
  forbiddenKeywords.find? (fun kw => searchWord kw u)

/-- `valid_tables` of line 156/159: the three hard-coded case variants
of `nyc_311` plus the identifiers captured after each `WITH`. -/
def validTables (withNames : List String) : List String :=
  ["nyc_311", "NYC_311", "Nyc_311"] ++ withNames

/-- The membership test of line 164: a table reference is bad when its
lowercasing is not `nyc_311` and it is not in `valid_tables`. -/
def badTableRef (withNames : List String) (r : String) : Bool :=
  pyLower r ≠ "nyc_311" && !(validTables withNames).contains r

/-- First offending table reference (loop of lines 161-166). -/
def findBadTable (refs withNames : List String) : Option String :=
  refs.find? (badTableRef withNames)

/-- A row, as the Python dict `column name → scalar value` (scalar
values are not inspected by the agent, so they are plain strings). -/
abbrev Row := List (String × String)

/-- The shared workflow state (`Context = Dict[str, Any]`), with the
fields `run_agent` initializes and the nodes read and write.  `Option`
is the Python `None`; `sql_confidence` is omitted (an uninspected
float). -/
structure Context where
  user_question : String
  deepseek_sql : Option String
  sql_explanation : Option String
  validated_sql : Option String
  sql_error : Option String
  result_rows : List Row
  result_columns : List String
  final_answer : Option String
  repair_count : Nat
deriving DecidableEq, Repr, Inhabited

/-- Python truthiness of a `None`-able string field: `None` and `""`
are falsy. -/
def truthy : Option String → Bool
  | none => false
  | some s => s ≠ ""

/-- `MAX_REPAIR_ATTEMPTS` (line 19). -/
def MAX_REPAIR_ATTEMPTS : Nat := 2

/-- `sql_validation_node` (lines 110-194), translated check by check:
clear `sql_error`/`validated_sql`; reject empty; reject unless the
upper-stripped text starts with SELECT or WITH; reject on a whole-word
forbidden keyword; reject an unknown FROM/JOIN reference; append
`" LIMIT 1000"` (after `rstrip(';').strip()`) when no LIMIT matches;
reject a LIMIT above 1000 (checked on the pre-append `sql_upper`);
otherwise record the validated query. -/
def sql_validation_node (s : Context) : Context :=
  let sql0 := s.deepseek_sql.getD ""
  let s := { s with sql_error := none, validated_sql := none }
  if pyStrip sql0 = "" then { s with sql_error := some "SQL query is empty" }
  else
    let u := pyStrip (pyUpper sql0)
    if !(pyStartsWith u "SELECT" || pyStartsWith u "WITH") then
      { s with sql_error := some "SQL must start with SELECT or WITH" }
    else
      match findForbidden u with
      | some kw => { s with sql_error := some ("Forbidden keyword found: " ++ kw) }
      | none =>
        let tableRefs := findRefs "FROM" u ++ findRefs "JOIN" u
        let withNames := findRefs "WITH" u
        match findBadTable tableRefs withNames with
        | some t => { s with sql_error := some ("Invalid table reference: " ++ t ++ ". Only 'nyc_311' and CTEs are allowed.") }
        | none =>
          let hasLimit := (firstLimit u).isSome
          let sql1 := if hasLimit then sql0
                      else pyStrip (pyRstripSemi sql0) ++ " LIMIT 1000"
          match firstLimit u with
          | some n =>
              if n > 1000 then
                { s with deepseek_sql := some sql1,
                         sql_error := some ("LIMIT value " ++ toString n ++ " exceeds maximum of 1000") }
              else
                { s with deepseek_sql := some sql1, validated_sql := some sql1 }
          | none =>
              { s with deepseek_sql := some sql1, validated_sql := some sql1 }

/-- A parsed JSON response from `call_deepseek_json`: the fields the
agent reads, each `none` when the key is absent. -/
structure Resp where
  sql : Option String
  explanation : Option String
  answer : Option String
deriving DecidableEq, Repr, Inhabited

/-- The external collaborators of one run, as explicit results:
the generation backend call, the repair backend call of each attempt
(indexed by the pre-increment `repair_count`), `run_query` on the
validated SQL, and the answer-synthesis backend call.  `Except.error`
is a raised exception, carrying `str(e)`. -/
structure Oracle where
  gen : Except String Resp
  repair : Nat → Except String Resp
  exec : String → Except String (List String × List Row)
  answer : Except String Resp

/-- `input_node` (lines 22-40).  For states created by `run_agent` the
schema is already in the context and `repair_count` is initialized, so
both conditional branches are skipped and the node only logs. -/
def input_node (s : Context) : Context := s

/-- `sql_generation_node` (lines 43-107): on backend success store the
`sql`/`explanation` fields (defaulting to `""`); on a raised exception
set `sql_error` and clear `deepseek_sql`. -/
def sql_generation_node (o : Except String Resp) (s : Context) : Context :=
  match o with
  | .ok r => { s with deepseek_sql := some (r.sql.getD ""),
                      sql_explanation := some (r.explanation.getD "") }
  | .error e => { s with sql_error := some ("SQL generation failed: " ++ e),
                         deepseek_sql := none }

/-- `f"{x}"` of a `None`-able string (Python prints `None`). -/
def pyStr : Option String → String
  | none => "None"
  | some s => s

/-- `sql_repair_node` (lines 197-270): if the budget is already spent,
overwrite `sql_error` with the max-attempts message; otherwise
increment `repair_count` BEFORE the backend call, then on success store
the repaired SQL and clear `sql_error`, and on a raised exception set
`sql_error` (the increment stands either way). -/
def sql_repair_node (o : Nat → Except String Resp) (s : Context) : Context :=
  if s.repair_count ≥ MAX_REPAIR_ATTEMPTS then
    { s with sql_error := some ("Maximum repair attempts (" ++ toString MAX_REPAIR_ATTEMPTS
        ++ ") reached. Last error: " ++ pyStr s.sql_error) }
  else
    let s1 := { s with repair_count := s.repair_count + 1 }
    match o s.repair_count with
    | .ok r => { s1 with deepseek_sql := some (r.sql.getD ""),
                         sql_explanation := some (r.explanation.getD ""),
                         sql_error := none }
    | .error e => { s1 with sql_error := some ("SQL repair failed: " ++ e) }

/-- `sql_execution_node` (lines 273-304): with no (truthy) validated
SQL set an error; otherwise run the query, storing columns/rows and
clearing `sql_error` on success, and on a raised exception setting
`sql_error` and resetting `result_columns`/`result_rows` to empty. -/
def sql_execution_node (o : String → Except String (List String × List Row))
    (s : Context) : Context :=
  if !truthy s.validated_sql then
    { s with sql_error := some "No validated SQL to execute" }
  else
    match o (s.validated_sql.getD "") with
    | .ok (cols, rows) =>
        { s with result_columns := cols, result_rows := rows, sql_error := none }
    | .error e =>
        { s with sql_error := some ("SQL execution failed: " ++ e),
                 result_columns := [], result_rows := [] }

/-- `answer_generation_node` (lines 307-380): when `sql_error` is
truthy, skip the backend call and answer `"Error: " + sql_error`;
otherwise call the backend, and on a raised exception fall back to the
row-count summary (non-empty rows) or the no-results message. -/
def answer_generation_node (o : Except String Resp) (s : Context) : Context :=
  if truthy s.sql_error then
    { s with final_answer := some ("Error: " ++ s.sql_error.getD "") }
  else
    match o with
    | .ok r => { s with final_answer := some (r.answer.getD "Unable to generate answer.") }
    | .error e =>
        if s.result_rows ≠ [] then
          { s with final_answer := some ("Query executed successfully and returned "
              ++ toString s.result_rows.length ++ " rows. Columns: "
              ++ String.intercalate ", " s.result_columns) }
        else
          { s with final_answer := some ("Query executed but returned no results. Error generating answer: " ++ e) }

/-- `output_node` (lines 383-391): logging only. -/
def output_node (s : Context) : Context := s

/-- `should_repair` (lines 394-417): the conditional edge out of
`validate_sql`, returning the route tag string. -/
def should_repair (s : Context) : String :=
  if truthy s.validated_sql then "continue"
  else if truthy s.sql_error && s.repair_count < MAX_REPAIR_ATTEMPTS then "repair"
  else if truthy s.sql_error && !truthy s.validated_sql then "skip_to_answer"
  else "continue"

/-- The validate/repair loop of the compiled graph (`build_graph`,
lines 425-468): run `validate_sql`, branch on `should_repair`
("repair" loops back through `repair_sql`, "skip_to_answer" goes
straight to `generate_answer`, "continue" goes through `execute_sql`
then `generate_answer`).  The fuel argument is a recursion bound; with
fuel `MAX_REPAIR_ATTEMPTS + 1` it is never exhausted because the
"repair" route requires `repair_count < MAX_REPAIR_ATTEMPTS` and each
pass through `repair_sql` then increments `repair_count`. -/
def validateLoop (o : Oracle) : Nat → Context → Context
  | 0, s => s
  | fuel + 1, s =>
      let s1 := sql_validation_node s
      if should_repair s1 = "repair" then
        validateLoop o fuel (sql_repair_node o.repair s1)
      else if should_repair s1 = "skip_to_answer" then
        answer_generation_node o.answer s1
      else
        answer_generation_node o.answer (sql_execution_node o.exec s1)

/-- Same loop, returning every intermediate state (the state after each
node executes), for reachability statements. -/
def validateLoopT (o : Oracle) : Nat → Context → List Context
  | 0, _ => []
  | fuel + 1, s =>
      let s1 := sql_validation_node s
      if should_repair s1 = "repair" then
        s1 :: sql_repair_node o.repair s1 :: validateLoopT o fuel (sql_repair_node o.repair s1)
      else if should_repair s1 = "skip_to_answer" then
        [s1, answer_generation_node o.answer s1]
      else
        [s1, sql_execution_node o.exec s1,
         answer_generation_node o.answer (sql_execution_node o.exec s1)]

/-- The initial context built by `run_agent` (lines 506-517). -/
def initContext (q : String) : Context :=
  { user_question := q
    deepseek_sql := none
    sql_explanation := none
    validated_sql := none
    sql_error := none
    result_rows := []
    result_columns := []
    final_answer := none
    repair_count := 0 }

/-- One full pass of the compiled graph from the initial context:
`input → generate_sql → (validate/repair/execute/answer) → output`. -/
def runFinal (o : Oracle) (q : String) : Context :=
  output_node (validateLoop o (MAX_REPAIR_ATTEMPTS + 1)
    (sql_generation_node o.gen (input_node (initContext q))))

/-- Every state reached during `runFinal`, after each node executes. -/
def runStates (o : Oracle) (q : String) : List Context :=
  let s0 := input_node (initContext q)
  let s1 := sql_generation_node o.gen s0
  s0 :: s1 :: validateLoopT o (MAX_REPAIR_ATTEMPTS + 1) s1

/-- The response dict of `run_agent` (lines 539-545). -/
structure AgentResult where
  answer_text : Option String
  sql : Option String
  columns : List String
  rows : List Row
  error : Option String
deriving DecidableEq, Repr

/-- `run_agent` (lines 483-551): load the schema first — a raised
exception there is re-raised (`Except.error`), aborting before the
context is created; otherwise build the initial context, run the
graph, and extract the result fields. -/
def run_agent (schemaLoad : Except String Unit) (o : Oracle) (q : String) :
    Except String AgentResult :=
  match schemaLoad with
  | .error e => .error e
  | .ok _ =>
      let fs := runFinal o q
      .ok { answer_text := fs.final_answer
            sql := fs.validated_sql
            columns := fs.result_columns
            rows := fs.result_rows
            error := fs.sql_error }

/-! ### Helper lemmas about the nodes and the routing -/

theorem sql_validation_node_repair_count (s : Context) :
    (sql_validation_node s).repair_count = s.repair_count := by
  simp only [sql_validation_node]
  repeat' split
  all_goals rfl

theorem sql_generation_node_repair_count (r : Except String Resp) (s : Context) :
    (sql_generation_node r s).repair_count = s.repair_count := by
  simp only [sql_generation_node]
  split <;> rfl

theorem sql_execution_node_repair_count (e : String → Except String (List String × List Row))
    (s : Context) : (sql_execution_node e s).repair_count = s.repair_count := by
  simp only [sql_execution_node]
  repeat' split
  all_goals rfl

theorem answer_generation_node_repair_count (r : Except String Resp) (s : Context) :
    (answer_generation_node r s).repair_count = s.repair_count := by
  simp only [answer_generation_node]
  repeat' split
  all_goals rfl

theorem sql_repair_node_repair_count (r : Nat → Except String Resp) (s : Context) :
    (sql_repair_node r s).repair_count =
      if s.repair_count ≥ MAX_REPAIR_ATTEMPTS then s.repair_count
      else s.repair_count + 1 := by
  simp only [sql_repair_node]
  repeat' split
  all_goals rfl

theorem answer_generation_node_final_isSome (r : Except String Resp) (s : Context) :
    ((answer_generation_node r s).final_answer).isSome = true := by
  simp only [answer_generation_node]
  repeat' split
  all_goals rfl

theorem should_repair_eq_repair {s : Context} (h : should_repair s = "repair") :
    truthy s.validated_sql = false ∧ truthy s.sql_error = true ∧
      s.repair_count < MAX_REPAIR_ATTEMPTS := by
  unfold should_repair at h
  split at h
  · exact absurd h (by decide)
  · split at h
    · rename_i hv hc
      rw [Bool.and_eq_true] at hc
      exact ⟨by simpa using hv, hc.1, of_decide_eq_true hc.2⟩
    · split at h <;> exact absurd h (by decide)

theorem should_repair_eq_skip {s : Context} (h : should_repair s = "skip_to_answer") :
    truthy s.validated_sql = false := by
  unfold should_repair at h
  split at h
  · exact absurd h (by decide)
  · rename_i hv
    simpa using hv

theorem validateLoop_repair_le (o : Oracle) :
    ∀ (fuel : Nat) (s : Context), s.repair_count ≤ MAX_REPAIR_ATTEMPTS →
      (validateLoop o fuel s).repair_count ≤ MAX_REPAIR_ATTEMPTS := by
  intro fuel
  induction fuel with
  | zero => intro s hs; exact hs
  | succ f ih =>
    intro s hs
    simp only [validateLoop]
    have hval : (sql_validation_node s).repair_count = s.repair_count :=
      sql_validation_node_repair_count s
    split
    · rename_i hroute
      apply ih
      rw [sql_repair_node_repair_count, hval]
      have hlt := (should_repair_eq_repair hroute).2.2
      rw [hval] at hlt
      split
      · exact hs
      · omega
    · split
      · rw [answer_generation_node_repair_count, hval]; exact hs
      · rw [answer_generation_node_repair_count, sql_execution_node_repair_count, hval]
        exact hs

theorem validateLoop_final_isSome (o : Oracle) :
    ∀ (fuel : Nat) (s : Context), 1 ≤ fuel →
      MAX_REPAIR_ATTEMPTS + 1 ≤ fuel + s.repair_count →
      ((validateLoop o fuel s).final_answer).isSome = true := by
  intro fuel
  induction fuel with
  | zero => intro s h1 _; omega
  | succ f ih =>
    intro s _ hinv
    simp only [validateLoop]
    have hval : (sql_validation_node s).repair_count = s.repair_count :=
      sql_validation_node_repair_count s
    split
    · rename_i hroute
      have hlt := (should_repair_eq_repair hroute).2.2
      rw [hval] at hlt
      apply ih
      · unfold MAX_REPAIR_ATTEMPTS at hinv hlt; omega
      · rw [sql_repair_node_repair_count, hval, if_neg (by omega)]
        omega
    · split
      · exact answer_generation_node_final_isSome _ _
      · exact answer_generation_node_final_isSome _ _

/-! ### Claim theorems -/

/-- Concrete routing inputs for the witness of the routing claim. -/
def ctxWithValidated : Context := { initContext "q" with validated_sql := some "SELECT 1" }

def ctxWithError : Context := { initContext "q" with sql_error := some "boom" }

def ctxErrorExhausted : Context :=
  { initContext "q" with sql_error := some "boom", repair_count := 2 }

/-- C1: after every validation pass the routing decision follows the
priority order of `should_repair`: a (truthy) `validated_sql` routes to
execution ("continue"); else a (truthy) `sql_error` with
`repair_count < 2` routes to repair; else a (truthy) `sql_error` with
no validated query routes straight to answer generation
("skip_to_answer", bypassing execution); otherwise the default is
execution ("continue"). -/
theorem routing_priority_order (s : Context) :
    (truthy s.validated_sql = true → should_repair s = "continue") ∧
    (truthy s.validated_sql = false → truthy s.sql_error = true →
      s.repair_count < MAX_REPAIR_ATTEMPTS → should_repair s = "repair") ∧
    (truthy s.validated_sql = false → truthy s.sql_error = true →
      ¬s.repair_count < MAX_REPAIR_ATTEMPTS → should_repair s = "skip_to_answer") ∧
    (truthy s.validated_sql = false → truthy s.sql_error = false →
      should_repair s = "continue") := by
  refine ⟨fun hv => ?_, fun hv he hc => ?_, fun hv he hc => ?_, fun hv he => ?_⟩
  · unfold should_repair
    simp [hv]
  · unfold should_repair
    simp [hv, he, hc]
  · unfold should_repair
    simp [hv, he, hc]
  · unfold should_repair
    simp [hv, he]

/-- Witness for the routing claim: each routing branch fires at a
concrete state. -/
theorem routing_priority_order_witness :
    should_repair ctxWithValidated = "continue" ∧
    should_repair ctxWithError = "repair" ∧
    should_repair ctxErrorExhausted = "skip_to_answer" ∧
    should_repair (initContext "q") = "continue" :=
  ⟨(routing_priority_order ctxWithValidated).1 (by decide),
   (routing_priority_order ctxWithError).2.1 (by decide) (by decide) (by decide),
   (routing_priority_order ctxErrorExhausted).2.2.1 (by decide) (by decide) (by decide),
   (routing_priority_order (initContext "q")).2.2.2 (by decide) (by decide)⟩

/-- C2: `repair_count` starts at 0 in the initial context, is left
unchanged by every node except `sql_repair_node`, is incremented by
`sql_repair_node` exactly when the budget is not already spent — and
that increment happens before the backend call, so it stands for every
repair oracle, including a failing one — and at the end of every run it
never exceeds `MAX_REPAIR_ATTEMPTS` (2). -/
theorem repair_count_discipline (o : Oracle) (q : String) :
    (initContext q).repair_count = 0 ∧
    (∀ s, (input_node s).repair_count = s.repair_count) ∧
    (∀ r s, (sql_generation_node r s).repair_count = s.repair_count) ∧
    (∀ s, (sql_validation_node s).repair_count = s.repair_count) ∧
    (∀ e s, (sql_execution_node e s).repair_count = s.repair_count) ∧
    (∀ r s, (answer_generation_node r s).repair_count = s.repair_count) ∧
    (∀ s, (output_node s).repair_count = s.repair_count) ∧
    (∀ r s, (sql_repair_node r s).repair_count =
      if s.repair_count ≥ MAX_REPAIR_ATTEMPTS then s.repair_count
      else s.repair_count + 1) ∧
    (∀ msg s, (sql_repair_node (fun _ => .error msg) s).repair_count =
      if s.repair_count ≥ MAX_REPAIR_ATTEMPTS then s.repair_count
      else s.repair_count + 1) ∧
    (runFinal o q).repair_count ≤ MAX_REPAIR_ATTEMPTS := by
  refine ⟨rfl, fun s => rfl, sql_generation_node_repair_count,
    sql_validation_node_repair_count, sql_execution_node_repair_count,
    answer_generation_node_repair_count, fun s => rfl,
    sql_repair_node_repair_count, fun msg => sql_repair_node_repair_count _,
    ?_⟩
  show (validateLoop o (MAX_REPAIR_ATTEMPTS + 1)
    (sql_generation_node o.gen (input_node (initContext q)))).repair_count ≤
      MAX_REPAIR_ATTEMPTS
  refine validateLoop_repair_le o _ _ ?_
  rw [sql_generation_node_repair_count]
  exact Nat.zero_le _

/-- C5: the orchestrator never lets a failure escape: for every oracle
(arbitrary backend/store outcomes) a run with a successful schema load
returns a result whose `answer_text` is populated, and a schema-load
failure is re-raised before any workflow state is created
(`run_agent` short-circuits to the same error). -/
theorem orchestrator_total (o : Oracle) (q : String) (e : String) :
    run_agent (Except.error e) o q = Except.error e ∧
    ∃ r, run_agent (Except.ok ()) o q = Except.ok r ∧ r.answer_text.isSome = true := by
  refine ⟨rfl, ⟨_, rfl, ?_⟩⟩
  show ((validateLoop o (MAX_REPAIR_ATTEMPTS + 1)
    (sql_generation_node o.gen (input_node (initContext q)))).final_answer).isSome = true
  refine validateLoop_final_isSome o _ _ (by decide) ?_
  rw [sql_generation_node_repair_count]
  show MAX_REPAIR_ATTEMPTS + 1 ≤ MAX_REPAIR_ATTEMPTS + 1 + 0
  decide

theorem append_ne_empty_left (a t : String) (ha : a ≠ "") : a ++ t ≠ "" := by
  intro h
  apply ha
  have hd := congrArg String.data h
  rw [String.data_append] at hd
  have h0 : a.data = [] := (List.append_eq_nil.mp hd).1
  exact String.ext h0

/-- C9: when execution of a validated query raises, the executor
records `sql_error = "SQL execution failed: " + detail` and resets
`result_columns`/`result_rows` to empty; the answer node then produces
the final answer from that error without consulting the answer backend
(its output is the same for every answer oracle), and the final answer
carries the execution failure detail. -/
theorem execution_failure_flow (s : Context)
    (ex : String → Except String (List String × List Row))
    (a1 a2 : Except String Resp) (d : String)
    (hv : truthy s.validated_sql = true)
    (hx : ex (s.validated_sql.getD "") = .error d) :
    (sql_execution_node ex s).sql_error = some ("SQL execution failed: " ++ d) ∧
    (sql_execution_node ex s).result_columns = [] ∧
    (sql_execution_node ex s).result_rows = [] ∧
    answer_generation_node a1 (sql_execution_node ex s) =
      answer_generation_node a2 (sql_execution_node ex s) ∧
    (answer_generation_node a1 (sql_execution_node ex s)).final_answer =
      some ("Error: " ++ ("SQL execution failed: " ++ d)) := by
  have hstep : sql_execution_node ex s =
      { s with sql_error := some ("SQL execution failed: " ++ d),
               result_columns := [], result_rows := [] } := by
    simp only [sql_execution_node, hv, Bool.not_true]
    rw [hx]
    rfl
  have herr : truthy (some ("SQL execution failed: " ++ d)) = true := by
    simp only [truthy]
    exact decide_eq_true (append_ne_empty_left _ _ (by decide))
  rw [hstep]
  refine ⟨rfl, rfl, rfl, ?_, ?_⟩ <;>
    simp only [answer_generation_node, herr, if_true, Option.getD_some]

/-- C10: the answer node skips the backend entirely whenever
`sql_error` is truthy (its output does not depend on the answer oracle
and is `"Error: " + sql_error`); without an error, a failing backend
call falls back deterministically to the row-count/columns summary
when `result_rows` is non-empty and to the "no results" message
carrying the failure detail otherwise; and `final_answer` is populated
in every case. -/
theorem answerer_fallback (s : Context) (a1 a2 a : Except String Resp) (e : String) :
    (truthy s.sql_error = true →
      answer_generation_node a1 s = answer_generation_node a2 s ∧
      (answer_generation_node a1 s).final_answer =
        some ("Error: " ++ s.sql_error.getD "")) ∧
    (truthy s.sql_error = false → s.result_rows ≠ [] →
      (answer_generation_node (Except.error e) s).final_answer =
        some ("Query executed successfully and returned " ++ toString s.result_rows.length
          ++ " rows. Columns: " ++ String.intercalate ", " s.result_columns)) ∧
    (truthy s.sql_error = false → s.result_rows = [] →
      (answer_generation_node (Except.error e) s).final_answer =
        some ("Query executed but returned no results. Error generating answer: " ++ e)) ∧
    ((answer_generation_node a s).final_answer).isSome = true := by
  refine ⟨fun he => ?_, fun he hr => ?_, fun he hr => ?_,
    answer_generation_node_final_isSome a s⟩
  · constructor <;> simp only [answer_generation_node, he, if_true]
  · simp only [answer_generation_node, he, Bool.false_eq_true, if_false, hr,
      ne_eq, not_false_eq_true, if_true]
  · simp [answer_generation_node, he, hr]

/-- Concrete inputs for the execution-failure witness. -/
def execFailCtx : Context :=
  { initContext "q" with validated_sql := some "SELECT x FROM nyc_311 LIMIT 10" }

def execFailExec : String → Except String (List String × List Row) :=
  fun _ => .error "db exploded"

/-- Witness: the execution-failure flow at a concrete validated query
and a concrete raising store, with two different answer oracles. -/
theorem execution_failure_flow_witness :
    (sql_execution_node execFailExec execFailCtx).sql_error =
      some ("SQL execution failed: " ++ "db exploded") ∧
    (sql_execution_node execFailExec execFailCtx).result_columns = [] ∧
    (sql_execution_node execFailExec execFailCtx).result_rows = [] ∧
    answer_generation_node (.ok { sql := none, explanation := none, answer := some "hi" })
        (sql_execution_node execFailExec execFailCtx) =
      answer_generation_node (.error "down") (sql_execution_node execFailExec execFailCtx) ∧
    (answer_generation_node (.ok { sql := none, explanation := none, answer := some "hi" })
        (sql_execution_node execFailExec execFailCtx)).final_answer =
      some ("Error: " ++ ("SQL execution failed: " ++ "db exploded")) :=
  execution_failure_flow execFailCtx execFailExec _ _ "db exploded" (by decide) rfl

/-- Concrete inputs for the answerer-fallback witness. -/
def answererErrCtx : Context := { initContext "q" with sql_error := some "kaput" }

def answererRowsCtx : Context :=
  { initContext "q" with result_rows := [[("a", "1")], [("a", "2")]],
                         result_columns := ["a"] }

/-- Witness: the three answer-node behaviours at concrete states. -/
theorem answerer_fallback_witness :
    (answer_generation_node (.ok { sql := none, explanation := none, answer := some "hi" })
        answererErrCtx =
      answer_generation_node (.error "down") answererErrCtx ∧
     (answer_generation_node (.ok { sql := none, explanation := none, answer := some "hi" })
        answererErrCtx).final_answer = some ("Error: " ++ (some "kaput").getD "")) ∧
    (answer_generation_node (Except.error "down") answererRowsCtx).final_answer =
      some ("Query executed successfully and returned " ++ toString answererRowsCtx.result_rows.length
        ++ " rows. Columns: " ++ String.intercalate ", " answererRowsCtx.result_columns) ∧
    (answer_generation_node (Except.error "down") (initContext "q")).final_answer =
      some ("Query executed but returned no results. Error generating answer: " ++ "down") :=
  ⟨(answerer_fallback answererErrCtx _ (.error "down") (.error "x") "down").1 (by decide),
   (answerer_fallback answererRowsCtx (.error "x") (.error "x") (.error "x") "down").2.1
     (by decide) (by decide),
   (answerer_fallback (initContext "q") (.error "x") (.error "x") (.error "x") "down").2.2.1
     (by decide) (by decide)⟩

/-- The oracle of the DROP scenario: generation and every repair
attempt propose `DROP TABLE nyc_311`; the store and answer backend are
arbitrary (they are never reached). -/
def dropResp : Resp :=
  { sql := some "DROP TABLE nyc_311", explanation := some "unchanged", answer := none }

def dropOracle (ex : String → Except String (List String × List Row))
    (ans : Except String Resp) : Oracle :=
  { gen := .ok dropResp, repair := fun _ => .ok dropResp, exec := ex, answer := ans }

/-- C3 counterexample: in the DROP scenario the run's `final_answer` is
`"Error: SQL must start with SELECT or WITH"` — the claimed
`"Error: Maximum repair attempts (2) reached. Last error: Forbidden
keyword found: DROP"` does not appear. -/
theorem drop_scenario_counterexample :
    (runFinal (dropOracle (fun _ => .error "unused") (.error "unused")) "q").final_answer =
      some "Error: SQL must start with SELECT or WITH" ∧
    (runFinal (dropOracle (fun _ => .error "unused") (.error "unused")) "q").final_answer ≠
      some "Error: Maximum repair attempts (2) reached. Last error: Forbidden keyword found: DROP" := by
  constructor
  · rfl
  · decide

/-- The DROP-scenario oracle with a raising store and answer backend,
and one with a succeeding store and answer backend: the runs are
identical, so neither backend is consulted. -/
def dropOracleA : Oracle := dropOracle (fun _ => .error "unused") (.error "unused")

def dropOracleB : Oracle :=
  dropOracle (fun _ => .ok (["c"], [[("c", "1")]]))
    (.ok { sql := none, explanation := none, answer := some "an answer" })

/-- C3 (amended): in the DROP scenario the third validation pass routes
"skip_to_answer" (the budget-exhausted branch fires after 2 repair
attempts), the run ends with `repair_count = 2`, and `final_answer` is
`"Error: SQL must start with SELECT or WITH"` — the starts-with check
rejects `DROP TABLE nyc_311` before the forbidden-keyword check runs,
and the repair node's own "Maximum repair attempts" message is
unreachable because routing never sends an exhausted state to it.  The
run is identical under a raising store/answer backend and a succeeding
one, so `final_answer` is synthesized with no backend call. -/
theorem drop_scenario_amended :
    should_repair (sql_validation_node (sql_repair_node dropOracleA.repair
      (sql_validation_node (sql_repair_node dropOracleA.repair
        (sql_validation_node (sql_generation_node dropOracleA.gen
          (input_node (initContext "q")))))))) = "skip_to_answer" ∧
    (runFinal dropOracleA "q").repair_count = 2 ∧
    (runFinal dropOracleA "q").final_answer =
      some "Error: SQL must start with SELECT or WITH" ∧
    runFinal dropOracleA "q" = runFinal dropOracleB "q" :=
  ⟨rfl, rfl, rfl, by decide⟩

theorem sql_generation_node_validated (r : Except String Resp) (s : Context) :
    (sql_generation_node r s).validated_sql = s.validated_sql := by
  simp only [sql_generation_node]
  split <;> rfl

theorem sql_repair_node_validated (r : Nat → Except String Resp) (s : Context) :
    (sql_repair_node r s).validated_sql = s.validated_sql := by
  simp only [sql_repair_node]
  repeat' split
  all_goals rfl

theorem answer_generation_node_frame (a : Except String Resp) (s : Context) :
    (answer_generation_node a s).validated_sql = s.validated_sql ∧
    (answer_generation_node a s).sql_error = s.sql_error := by
  simp only [answer_generation_node]
  repeat' split
  all_goals exact ⟨rfl, rfl⟩

theorem sql_validation_node_excl (s : Context) :
    (sql_validation_node s).validated_sql = none ∨
    (sql_validation_node s).sql_error = none := by
  simp only [sql_validation_node]
  repeat' split
  all_goals first | exact Or.inl rfl | exact Or.inr rfl

theorem sql_execution_node_cases (e : String → Except String (List String × List Row))
    (s : Context) :
    (truthy s.validated_sql = false ∧
      sql_execution_node e s = { s with sql_error := some "No validated SQL to execute" }) ∨
    (∃ cols rows, sql_execution_node e s =
      { s with result_columns := cols, result_rows := rows, sql_error := none }) ∨
    (∃ d, sql_execution_node e s =
      { s with sql_error := some ("SQL execution failed: " ++ d),
               result_columns := [], result_rows := [] }) := by
  by_cases hval : truthy s.validated_sql = true
  · cases hex : e (s.validated_sql.getD "") with
    | ok pr =>
      refine Or.inr (Or.inl ⟨pr.1, pr.2, ?_⟩)
      simp only [sql_execution_node, hval, Bool.not_true, Bool.false_eq_true, if_false]
      rw [hex]
    | error d =>
      refine Or.inr (Or.inr ⟨d, ?_⟩)
      simp only [sql_execution_node, hval, Bool.not_true, Bool.false_eq_true, if_false]
      rw [hex]
  · have hval' : truthy s.validated_sql = false := by simpa using hval
    refine Or.inl ⟨hval', ?_⟩
    simp only [sql_execution_node, hval', Bool.not_false, if_true]

theorem validateLoopT_both_set (o : Oracle) :
    ∀ (fuel : Nat) (s t : Context), t ∈ validateLoopT o fuel s →
      truthy t.validated_sql = true → truthy t.sql_error = true →
      ∃ d, t.sql_error = some ("SQL execution failed: " ++ d) := by
  intro fuel
  induction fuel with
  | zero => intro s t ht _ _; simp [validateLoopT] at ht
  | succ f ih =>
    intro s t ht hv he
    simp only [validateLoopT] at ht
    split at ht
    · rename_i hroute
      rcases List.mem_cons.mp ht with h1 | ht2
      · rw [h1] at hv
        rw [(should_repair_eq_repair hroute).1] at hv
        exact absurd hv (by decide)
      · rcases List.mem_cons.mp ht2 with h2 | ht3
        · rw [h2] at hv
          rw [sql_repair_node_validated, (should_repair_eq_repair hroute).1] at hv
          exact absurd hv (by decide)
        · exact ih _ _ ht3 hv he
    · split at ht
      · rename_i hroute
        rcases List.mem_cons.mp ht with h1 | ht2
        · rw [h1] at hv
          rw [should_repair_eq_skip hroute] at hv
          exact absurd hv (by decide)
        · have h2 : t = answer_generation_node o.answer (sql_validation_node s) := by
            simpa using ht2
          rw [h2] at hv
          rw [(answer_generation_node_frame _ _).1, should_repair_eq_skip hroute] at hv
          exact absurd hv (by decide)
      · have hval := sql_validation_node_excl s
        rcases List.mem_cons.mp ht with h1 | ht2
        · rw [h1] at hv he
          rcases hval with hnone | henone
          · rw [hnone] at hv
            exact absurd hv (by decide)
          · rw [henone] at he
            exact absurd he (by decide)
        · have hexec : ∀ u : Context, u = sql_execution_node o.exec (sql_validation_node s) →
              truthy u.validated_sql = true → truthy u.sql_error = true →
              ∃ d, u.sql_error = some ("SQL execution failed: " ++ d) := by
            intro u hu huv hue
            rcases sql_execution_node_cases o.exec (sql_validation_node s) with
              ⟨hvf, heq⟩ | ⟨cols, rows, heq⟩ | ⟨d, heq⟩
            · rw [hu, heq] at huv
              simp only at huv
              rw [hvf] at huv
              exact absurd huv (by decide)
            · rw [hu, heq] at hue
              simp [truthy] at hue
            · exact ⟨d, by rw [hu, heq]⟩
          rcases List.mem_cons.mp ht2 with h2 | ht3
          · exact hexec t h2 hv he
          · have h3 : t = answer_generation_node o.answer
                (sql_execution_node o.exec (sql_validation_node s)) := by
              simpa using ht3
            have hfv := (answer_generation_node_frame o.answer
              (sql_execution_node o.exec (sql_validation_node s))).1
            have hfe := (answer_generation_node_frame o.answer
              (sql_execution_node o.exec (sql_validation_node s))).2
            rw [h3, hfv] at hv
            rw [h3, hfe] at he
            obtain ⟨d, hd⟩ := hexec _ rfl hv he
            exact ⟨d, by rw [h3, hfe, hd]⟩

/-- C4 (amended): in every reachable state of a run, `validated_sql`
is non-empty while `sql_error` is set only when the error is an
execution failure: the executor keeps the validated query when
`run_query` raises, so after a failed execution (and in the answer and
output states that follow) both fields are set, and in every other
reachable state they are mutually exclusive. -/
theorem validated_with_error_amended (o : Oracle) (q : String) (t : Context)
    (ht : t ∈ runStates o q)
    (hv : truthy t.validated_sql = true) (he : truthy t.sql_error = true) :
    ∃ d, t.sql_error = some ("SQL execution failed: " ++ d) := by
  simp only [runStates] at ht
  rcases List.mem_cons.mp ht with h0 | ht
  · rw [h0] at hv
    simp [input_node, initContext, truthy] at hv
  · rcases List.mem_cons.mp ht with h1 | ht
    · rw [h1] at hv
      rw [sql_generation_node_validated] at hv
      simp [input_node, initContext, truthy] at hv
    · exact validateLoopT_both_set o _ _ _ ht hv he

/-- The execution-failure run used to exhibit a state with both
`validated_sql` and `sql_error` set. -/
def execFailOracle : Oracle :=
  { gen := .ok { sql := some "SELECT x FROM nyc_311 LIMIT 10", explanation := none, answer := none }
    repair := fun _ => .error "unused"
    exec := fun _ => .error "disk error"
    answer := .ok { sql := none, explanation := none, answer := some "done" } }

def execFailState : Context :=
  sql_execution_node execFailOracle.exec
    (sql_validation_node (sql_generation_node execFailOracle.gen (input_node (initContext "q"))))

/-- C4 counterexample: a reachable state of a concrete run (after the
executor fails on a validated query) has a non-empty `validated_sql`
and a set `sql_error` at the same time. -/
theorem validated_with_error_counterexample :
    execFailState ∈ runStates execFailOracle "q" ∧
    truthy execFailState.validated_sql = true ∧
    truthy execFailState.sql_error = true := by
  refine ⟨by decide, by decide, by decide⟩

/-- Witness: the amended claim applied to the concrete reachable state
of the execution-failure run. -/
theorem validated_with_error_amended_witness :
    execFailState ∈ runStates execFailOracle "q" ∧
    truthy execFailState.validated_sql = true ∧
    truthy execFailState.sql_error = true ∧
    ∃ d, execFailState.sql_error = some ("SQL execution failed: " ++ d) :=
  ⟨by decide, by decide, by decide,
   validated_with_error_amended execFailOracle "q" execFailState
     (by decide) (by decide) (by decide)⟩

/-! ### Whole-word occurrence: the scan agrees with the declarative
decomposition of the text around the keyword -/

/-- The spec's notion of a whole-word occurrence of `kw` in `s`: the
text splits as `pre ++ kw ++ post` with no word character adjacent to
`kw` on either side. -/
def occursWholeWord (kw s : String) : Prop :=
  ∃ pre post : List Char, s.data = pre ++ kw.data ++ post ∧
    (∀ c, pre.getLast? = some c → wordChar c = false) ∧
    (∀ c, post.head? = some c → wordChar c = false)

theorem matchWordAt_iff (kw : List Char) : ∀ s : List Char,
    matchWordAt kw s = true ↔
      ∃ post, s = kw ++ post ∧ ∀ c, post.head? = some c → wordChar c = false := by
  induction kw with
  | nil =>
    intro s
    cases s with
    | nil =>
      constructor
      · intro _
        exact ⟨[], rfl, by intro c hc; simp at hc⟩
      · intro _
        rfl
    | cons c cs =>
      constructor
      · intro h
        refine ⟨c :: cs, rfl, ?_⟩
        intro x hx
        simp only [List.head?_cons, Option.some.injEq] at hx
        subst hx
        simpa [matchWordAt] using h
      · rintro ⟨post, hpost, hcond⟩
        simp only [List.nil_append] at hpost
        subst hpost
        have hc := hcond c List.head?_cons
        simp [matchWordAt, hc]
  | cons k ks ih =>
    intro s
    cases s with
    | nil => simp [matchWordAt]
    | cons c cs =>
      simp only [matchWordAt, Bool.and_eq_true, beq_iff_eq, ih, List.cons_append]
      constructor
      · rintro ⟨hk, post, hcs, hcond⟩
        exact ⟨post, by rw [hk, hcs], hcond⟩
      · rintro ⟨post, heq, hcond⟩
        rw [List.cons.injEq] at heq
        exact ⟨heq.1.symm, post, heq.2, hcond⟩

theorem searchWordAux_iff (kw : List Char) : ∀ (s : List Char) (prev : Bool),
    searchWordAux kw prev s = true ↔
      ∃ pre post, s = pre ++ kw ++ post ∧
        (pre = [] → prev = false) ∧
        (∀ c, pre.getLast? = some c → wordChar c = false) ∧
        (∀ c, post.head? = some c → wordChar c = false) := by
  intro s
  induction s with
  | nil =>
    intro prev
    simp only [searchWordAux, Bool.and_eq_true, Bool.not_eq_true']
    constructor
    · rintro ⟨hprev, hmatch⟩
      rcases (matchWordAt_iff kw []).mp hmatch with ⟨post, hpost, hcond⟩
      have hkw : kw = [] ∧ post = [] := List.append_eq_nil.mp hpost.symm
      refine ⟨[], [], ?_, fun _ => hprev, by simp, by simp⟩
      rw [hkw.1]
      rfl
    · rintro ⟨pre, post, heq, hpre, _, _⟩
      have h0 : pre = [] ∧ kw ++ post = [] := List.append_eq_nil.mp
        (by rw [← List.append_assoc]; exact heq.symm)
      have h1 : kw = [] ∧ post = [] := List.append_eq_nil.mp h0.2
      refine ⟨hpre h0.1, ?_⟩
      rw [h1.1]
      rfl
  | cons c cs ih =>
    intro prev
    simp only [searchWordAux, Bool.or_eq_true, Bool.and_eq_true, Bool.not_eq_true']
    constructor
    · rintro (⟨hprev, hmatch⟩ | hrec)
      · rcases (matchWordAt_iff kw (c :: cs)).mp hmatch with ⟨post, hpost, hcond⟩
        exact ⟨[], post, by simpa using hpost, fun _ => hprev, by simp, hcond⟩
      · rcases (ih (wordChar c)).mp hrec with ⟨pre, post, heq, hpre, hlast, hhead⟩
        refine ⟨c :: pre, post, by rw [List.cons_append, List.cons_append, ← heq],
          by simp, ?_, hhead⟩
        intro x hx
        cases pre with
        | nil =>
          simp only [List.getLast?_singleton, Option.some.injEq] at hx
          subst hx
          exact hpre rfl
        | cons p ps =>
          rw [List.getLast?_cons_cons] at hx
          exact hlast x hx
    · rintro ⟨pre, post, heq, hpre, hlast, hhead⟩
      cases pre with
      | nil =>
        refine Or.inl ⟨hpre rfl, ?_⟩
        simp only [List.nil_append] at heq
        exact (matchWordAt_iff kw (c :: cs)).mpr ⟨post, heq, hhead⟩
      | cons p ps =>
        refine Or.inr ((ih (wordChar c)).mpr ?_)
        rw [List.cons_append, List.cons_append, List.cons.injEq] at heq
        refine ⟨ps, post, heq.2, ?_, ?_, hhead⟩
        · intro hps
          subst hps
          rw [heq.1]
          exact hlast p (List.getLast?_singleton p)
        · intro x hx
          apply hlast x
          cases ps with
          | nil => simp at hx
          | cons a as =>
            rw [List.getLast?_cons_cons]
            exact hx

/-- The `re.search(r'\bKW\b', u)` scan finds the keyword exactly when
it occurs in the text as a whole word. -/
theorem searchWord_iff (kw s : String) :
    searchWord kw s = true ↔ occursWholeWord kw s := by
  unfold searchWord occursWholeWord
  rw [searchWordAux_iff]
  constructor
  · rintro ⟨pre, post, h, _, h2, h3⟩
    exact ⟨pre, post, h, h2, h3⟩
  · rintro ⟨pre, post, h, h2, h3⟩
    exact ⟨pre, post, h, fun _ => rfl, h2, h3⟩

/-- Two appends with distinct prefixes (witnessed by their first `n`
characters) are distinct strings. -/
theorem append_take_ne {a b : String} (x y : String) (n : Nat)
    (hn1 : n ≤ a.data.length) (hn2 : n ≤ b.data.length)
    (hne : a.data.take n ≠ b.data.take n) : a ++ x ≠ b ++ y := by
  intro h
  apply hne
  have hd := congrArg String.data h
  rw [String.data_append, String.data_append] at hd
  have ht := congrArg (List.take n) hd
  rwa [List.take_append_of_le_length hn1, List.take_append_of_le_length hn2] at ht

/-! ### Stage lemmas for the validation node on a context holding a
candidate query -/

/-- A context whose only populated optional field is the candidate
query, as the validator receives it after generation. -/
def vInput (q : String) : Context := { initContext "" with deepseek_sql := some q }

theorem vInput_validation_forbidden {q k : String}
    (h1 : ¬pyStrip q = "")
    (h2 : (pyStartsWith (pyStrip (pyUpper q)) "SELECT" ||
           pyStartsWith (pyStrip (pyUpper q)) "WITH") = true)
    (hf : findForbidden (pyStrip (pyUpper q)) = some k) :
    sql_validation_node (vInput q) =
      { vInput q with sql_error := some ("Forbidden keyword found: " ++ k) } := by
  simp only [sql_validation_node, vInput, initContext, Option.getD_some]
  rw [if_neg h1]
  simp only [h2, Bool.not_true, Bool.false_eq_true, if_false]
  rw [hf]

theorem vInput_validation_table {q t : String}
    (h1 : ¬pyStrip q = "")
    (h2 : (pyStartsWith (pyStrip (pyUpper q)) "SELECT" ||
           pyStartsWith (pyStrip (pyUpper q)) "WITH") = true)
    (hf : findForbidden (pyStrip (pyUpper q)) = none)
    (hb : findBadTable
        (findRefs "FROM" (pyStrip (pyUpper q)) ++ findRefs "JOIN" (pyStrip (pyUpper q)))
        (findRefs "WITH" (pyStrip (pyUpper q))) = some t) :
    sql_validation_node (vInput q) =
      { vInput q with sql_error := some ("Invalid table reference: " ++ t ++
          ". Only 'nyc_311' and CTEs are allowed.") } := by
  simp only [sql_validation_node, vInput, initContext, Option.getD_some]
  rw [if_neg h1]
  simp only [h2, Bool.not_true, Bool.false_eq_true, if_false]
  rw [hf, hb]

theorem vInput_validation_no_limit {q : String}
    (h1 : ¬pyStrip q = "")
    (h2 : (pyStartsWith (pyStrip (pyUpper q)) "SELECT" ||
           pyStartsWith (pyStrip (pyUpper q)) "WITH") = true)
    (hf : findForbidden (pyStrip (pyUpper q)) = none)
    (hb : findBadTable
        (findRefs "FROM" (pyStrip (pyUpper q)) ++ findRefs "JOIN" (pyStrip (pyUpper q)))
        (findRefs "WITH" (pyStrip (pyUpper q))) = none)
    (hl : firstLimit (pyStrip (pyUpper q)) = none) :
    sql_validation_node (vInput q) =
      { vInput q with
          deepseek_sql := some (pyStrip (pyRstripSemi q) ++ " LIMIT 1000"),
          validated_sql := some (pyStrip (pyRstripSemi q) ++ " LIMIT 1000") } := by
  simp only [sql_validation_node, vInput, initContext, Option.getD_some]
  rw [if_neg h1]
  simp only [h2, Bool.not_true, Bool.false_eq_true, if_false]
  rw [hf, hb, hl]
  simp only [Option.isSome_none, Bool.false_eq_true, if_false]

theorem vInput_validation_with_limit {q : String} {n : Nat}
    (h1 : ¬pyStrip q = "")
    (h2 : (pyStartsWith (pyStrip (pyUpper q)) "SELECT" ||
           pyStartsWith (pyStrip (pyUpper q)) "WITH") = true)
    (hf : findForbidden (pyStrip (pyUpper q)) = none)
    (hb : findBadTable
        (findRefs "FROM" (pyStrip (pyUpper q)) ++ findRefs "JOIN" (pyStrip (pyUpper q)))
        (findRefs "WITH" (pyStrip (pyUpper q))) = none)
    (hl : firstLimit (pyStrip (pyUpper q)) = some n) :
    sql_validation_node (vInput q) =
      (if n > 1000 then
        { vInput q with sql_error := some ("LIMIT value " ++ toString n ++
            " exceeds maximum of 1000") }
      else
        { vInput q with validated_sql := some q }) := by
  simp only [sql_validation_node, vInput, initContext, Option.getD_some]
  rw [if_neg h1]
  simp only [h2, Bool.not_true, Bool.false_eq_true, if_false]
  rw [hf, hb, hl]
  simp only [Option.isSome_some, if_true]

/-- C6 counterexample: `"DROP TABLE t"` is rejected, but by the
starts-with-SELECT/WITH check, not with `ForbiddenKeyword(DROP)`. -/
theorem forbidden_keyword_counterexample :
    (sql_validation_node (vInput "DROP TABLE t")).sql_error =
      some "SQL must start with SELECT or WITH" ∧
    ¬(sql_validation_node (vInput "DROP TABLE t")).sql_error =
      some "Forbidden keyword found: DROP" := by
  decide

/-- C6 (amended): for a candidate that passes the earlier checks
(non-blank, starts with SELECT or WITH after upper-casing and
stripping), the validator rejects with `Forbidden keyword found: k`
for some `k` exactly when some member of the fixed forbidden-keyword
list occurs in the upper-cased text as a whole word; `"SELECT dropdown
FROM nyc_311"` is not rejected (word-boundary check), while `"SELECT
drop FROM nyc_311"` is rejected with `ForbiddenKeyword(DROP)`.
A query such as `"DROP TABLE t"` never reaches this check: it is
rejected earlier with the statement-form error. -/
theorem forbidden_keyword_policy (q : String)
    (h1 : ¬pyStrip q = "")
    (h2 : (pyStartsWith (pyStrip (pyUpper q)) "SELECT" ||
           pyStartsWith (pyStrip (pyUpper q)) "WITH") = true) :
    ((∃ k, (sql_validation_node (vInput q)).sql_error =
        some ("Forbidden keyword found: " ++ k)) ↔
      ∃ kw ∈ forbiddenKeywords, occursWholeWord kw (pyStrip (pyUpper q))) ∧
    (sql_validation_node (vInput "SELECT dropdown FROM nyc_311")).sql_error = none ∧
    (sql_validation_node (vInput "SELECT drop FROM nyc_311")).sql_error =
      some "Forbidden keyword found: DROP" := by
  refine ⟨?_, by decide, by decide⟩
  constructor
  · rintro ⟨k, hk⟩
    cases hf : findForbidden (pyStrip (pyUpper q)) with
    | some k0 =>
      have hf' : forbiddenKeywords.find?
          (fun kw => searchWord kw (pyStrip (pyUpper q))) = some k0 := hf
      have hp := List.find?_some hf'
      simp only at hp
      exact ⟨k0, List.mem_of_find?_eq_some hf', (searchWord_iff _ _).mp hp⟩
    | none =>
      exfalso
      cases hb : findBadTable
          (findRefs "FROM" (pyStrip (pyUpper q)) ++ findRefs "JOIN" (pyStrip (pyUpper q)))
          (findRefs "WITH" (pyStrip (pyUpper q))) with
      | some t =>
        rw [vInput_validation_table h1 h2 hf hb] at hk
        simp only [Option.some.injEq] at hk
        rw [String.append_assoc] at hk
        exact append_take_ne _ _ 1 (by decide) (by decide) (by decide) hk
      | none =>
        cases hl : firstLimit (pyStrip (pyUpper q)) with
        | some n =>
          rw [vInput_validation_with_limit h1 h2 hf hb hl] at hk
          by_cases hn : n > 1000
          · rw [if_pos hn] at hk
            simp only [Option.some.injEq] at hk
            rw [String.append_assoc] at hk
            exact append_take_ne _ _ 1 (by decide) (by decide) (by decide) hk
          · rw [if_neg hn] at hk
            simp [vInput, initContext] at hk
        | none =>
          rw [vInput_validation_no_limit h1 h2 hf hb hl] at hk
          simp [vInput, initContext] at hk
  · rintro ⟨kw, hmem, hocc⟩
    have hsome : (forbiddenKeywords.find?
        (fun kw => searchWord kw (pyStrip (pyUpper q)))).isSome :=
      List.find?_isSome.mpr ⟨kw, hmem, (searchWord_iff _ _).mpr hocc⟩
    obtain ⟨k0, hf⟩ := Option.isSome_iff_exists.mp hsome
    refine ⟨k0, ?_⟩
    rw [vInput_validation_forbidden h1 h2 hf]

/-- Witness: the amended keyword policy at the concrete candidate
`"SELECT drop FROM nyc_311"`. -/
theorem forbidden_keyword_policy_witness :
    (∃ k, (sql_validation_node (vInput "SELECT drop FROM nyc_311")).sql_error =
        some ("Forbidden keyword found: " ++ k)) ↔
      ∃ kw ∈ forbiddenKeywords,
        occursWholeWord kw (pyStrip (pyUpper "SELECT drop FROM nyc_311")) :=
  (forbidden_keyword_policy "SELECT drop FROM nyc_311" (by decide) (by decide)).1

/-- The LIMIT-policy example query of the spec and its normalized
form. -/
def exampleGroupByQuery : String :=
  "SELECT complaint_type, COUNT(*) FROM nyc_311 GROUP BY complaint_type"

def exampleGroupByQueryLimited : String :=
  "SELECT complaint_type, COUNT(*) FROM nyc_311 GROUP BY complaint_type LIMIT 1000"

/-- C7: the validator's LIMIT policy.  For a candidate that reaches
the LIMIT stage (earlier checks pass): with no `LIMIT n` match, the
validator appends `" LIMIT 1000"` after `rstrip(';').strip()` and
accepts; with a first `LIMIT n` match and `n > 1000` it rejects with
`LimitExceeded(n)`; with `n ≤ 1000` it accepts the query unchanged.
The spec's example validates to a query ending in `"GROUP BY
complaint_type LIMIT 1000"`, and re-validating that output returns the
very same state with the same validated query (no second LIMIT). -/
theorem limit_policy :
    (∀ (q : String) (n : Nat), ¬pyStrip q = "" →
      (pyStartsWith (pyStrip (pyUpper q)) "SELECT" ||
       pyStartsWith (pyStrip (pyUpper q)) "WITH") = true →
      findForbidden (pyStrip (pyUpper q)) = none →
      findBadTable
        (findRefs "FROM" (pyStrip (pyUpper q)) ++ findRefs "JOIN" (pyStrip (pyUpper q)))
        (findRefs "WITH" (pyStrip (pyUpper q))) = none →
      (firstLimit (pyStrip (pyUpper q)) = none →
        (sql_validation_node (vInput q)).validated_sql =
          some (pyStrip (pyRstripSemi q) ++ " LIMIT 1000") ∧
        (sql_validation_node (vInput q)).sql_error = none) ∧
      (firstLimit (pyStrip (pyUpper q)) = some n → n > 1000 →
        (sql_validation_node (vInput q)).sql_error =
          some ("LIMIT value " ++ toString n ++ " exceeds maximum of 1000") ∧
        (sql_validation_node (vInput q)).validated_sql = none) ∧
      (firstLimit (pyStrip (pyUpper q)) = some n → ¬n > 1000 →
        (sql_validation_node (vInput q)).validated_sql = some q ∧
        (sql_validation_node (vInput q)).sql_error = none)) ∧
    (sql_validation_node (vInput exampleGroupByQuery)).validated_sql =
      some exampleGroupByQueryLimited ∧
    pyEndsWith exampleGroupByQueryLimited "GROUP BY complaint_type LIMIT 1000" = true ∧
    sql_validation_node (vInput exampleGroupByQueryLimited) =
      { vInput exampleGroupByQueryLimited with
          validated_sql := some exampleGroupByQueryLimited } ∧
    (sql_validation_node (vInput "SELECT * FROM nyc_311 LIMIT 5000")).sql_error =
      some "LIMIT value 5000 exceeds maximum of 1000" := by
  refine ⟨?_, by decide, by decide, by decide, by decide⟩
  intro q n h1 h2 hf hb
  refine ⟨fun hl => ?_, fun hl hn => ?_, fun hl hn => ?_⟩
  · rw [vInput_validation_no_limit h1 h2 hf hb hl]
    exact ⟨rfl, rfl⟩
  · rw [vInput_validation_with_limit h1 h2 hf hb hl, if_pos hn]
    exact ⟨rfl, rfl⟩
  · rw [vInput_validation_with_limit h1 h2 hf hb hl, if_neg hn]
    exact ⟨rfl, rfl⟩

/-- Witness: the three LIMIT-stage behaviours at concrete candidates. -/
theorem limit_policy_witness :
    ((sql_validation_node (vInput "SELECT c FROM nyc_311")).validated_sql =
      some (pyStrip (pyRstripSemi "SELECT c FROM nyc_311") ++ " LIMIT 1000")) ∧
    ((sql_validation_node (vInput "SELECT * FROM nyc_311 LIMIT 5000")).sql_error =
      some ("LIMIT value " ++ toString 5000 ++ " exceeds maximum of 1000")) ∧
    ((sql_validation_node (vInput "SELECT * FROM nyc_311 LIMIT 10")).validated_sql =
      some "SELECT * FROM nyc_311 LIMIT 10") :=
  ⟨((limit_policy.1 "SELECT c FROM nyc_311" 0 (by decide) (by decide) (by decide)
      (by decide)).1 (by decide)).1,
   ((limit_policy.1 "SELECT * FROM nyc_311 LIMIT 5000" 5000 (by decide) (by decide)
      (by decide) (by decide)).2.1 (by decide) (by decide)).1,
   ((limit_policy.1 "SELECT * FROM nyc_311 LIMIT 10" 10 (by decide) (by decide)
      (by decide) (by decide)).2.2 (by decide) (by decide)).1⟩

/-- C8 counterexample: in a multi-CTE query every `FROM` reference is
a CTE declared after `WITH`, yet the validator rejects it — only the
identifier immediately after the `WITH` keyword is extracted as a CTE
name (`B`, declared second, is missed). -/
theorem table_reference_counterexample :
    (sql_validation_node
        (vInput "WITH A AS (SELECT 1), B AS (SELECT 2) SELECT * FROM B")).sql_error =
      some "Invalid table reference: B. Only 'nyc_311' and CTEs are allowed." ∧
    findRefs "WITH"
        (pyStrip (pyUpper "WITH A AS (SELECT 1), B AS (SELECT 2) SELECT * FROM B")) =
      ["A"] := by
  decide

/-- C8 (amended): for a candidate that passes the earlier checks, the
validator extracts the identifiers following FROM and JOIN
(whole-word, on the upper-cased text) and, as CTE names, only the
single identifier immediately following each WITH keyword; it rejects
with `InvalidTableReference(name)` exactly when some extracted
FROM/JOIN reference is neither `nyc_311` (case-insensitively) nor one
of those extracted names.  A single-CTE query referencing its CTE
passes; a join against another table is rejected; CTEs after the first
in a comma-separated WITH list are not recognised. -/
theorem table_reference_policy (q : String)
    (h1 : ¬pyStrip q = "")
    (h2 : (pyStartsWith (pyStrip (pyUpper q)) "SELECT" ||
           pyStartsWith (pyStrip (pyUpper q)) "WITH") = true)
    (hf : findForbidden (pyStrip (pyUpper q)) = none) :
    ((∃ r, (sql_validation_node (vInput q)).sql_error =
        some ("Invalid table reference: " ++ r ++ ". Only 'nyc_311' and CTEs are allowed.")) ↔
      ∃ r ∈ findRefs "FROM" (pyStrip (pyUpper q)) ++ findRefs "JOIN" (pyStrip (pyUpper q)),
        badTableRef (findRefs "WITH" (pyStrip (pyUpper q))) r = true) ∧
    (sql_validation_node
        (vInput "WITH recent AS (SELECT 1) SELECT * FROM recent")).sql_error = none ∧
    (sql_validation_node
        (vInput "SELECT a FROM nyc_311 JOIN other_table ON a = b")).sql_error =
      some "Invalid table reference: OTHER_TABLE. Only 'nyc_311' and CTEs are allowed." := by
  refine ⟨?_, by decide, by decide⟩
  constructor
  · rintro ⟨r, hr⟩
    cases hb : findBadTable
        (findRefs "FROM" (pyStrip (pyUpper q)) ++ findRefs "JOIN" (pyStrip (pyUpper q)))
        (findRefs "WITH" (pyStrip (pyUpper q))) with
    | some t =>
      have hb' : (findRefs "FROM" (pyStrip (pyUpper q)) ++
          findRefs "JOIN" (pyStrip (pyUpper q))).find?
            (badTableRef (findRefs "WITH" (pyStrip (pyUpper q)))) = some t := hb
      exact ⟨t, List.mem_of_find?_eq_some hb', List.find?_some hb'⟩
    | none =>
      exfalso
      cases hl : firstLimit (pyStrip (pyUpper q)) with
      | some n =>
        rw [vInput_validation_with_limit h1 h2 hf hb hl] at hr
        by_cases hn : n > 1000
        · rw [if_pos hn] at hr
          simp only [Option.some.injEq] at hr
          rw [String.append_assoc, String.append_assoc] at hr
          exact append_take_ne _ _ 1 (by decide) (by decide) (by decide) hr
        · rw [if_neg hn] at hr
          simp [vInput, initContext] at hr
      | none =>
        rw [vInput_validation_no_limit h1 h2 hf hb hl] at hr
        simp [vInput, initContext] at hr
  · rintro ⟨r, hmem, hbad⟩
    have hsome : ((findRefs "FROM" (pyStrip (pyUpper q)) ++
        findRefs "JOIN" (pyStrip (pyUpper q))).find?
          (badTableRef (findRefs "WITH" (pyStrip (pyUpper q))))).isSome :=
      List.find?_isSome.mpr ⟨r, hmem, hbad⟩
    obtain ⟨t, hb⟩ := Option.isSome_iff_exists.mp hsome
    refine ⟨t, ?_⟩
    rw [vInput_validation_table h1 h2 hf hb]

/-- Witness: the amended table-reference policy at the concrete
candidate `"SELECT a FROM somewhere_else"`. -/
theorem table_reference_policy_witness :
    (∃ r, (sql_validation_node (vInput "SELECT a FROM somewhere_else")).sql_error =
        some ("Invalid table reference: " ++ r ++ ". Only 'nyc_311' and CTEs are allowed.")) ↔
      ∃ r ∈ findRefs "FROM" (pyStrip (pyUpper "SELECT a FROM somewhere_else")) ++
          findRefs "JOIN" (pyStrip (pyUpper "SELECT a FROM somewhere_else")),
        badTableRef (findRefs "WITH" (pyStrip (pyUpper "SELECT a FROM somewhere_else"))) r = true :=
  (table_reference_policy "SELECT a FROM somewhere_else" (by decide) (by decide) (by decide)).1

end NullAxis
